import Mathlib

/-!
Verification of the `generate_dataset_replica.py` orchestration script from the
`scene_graph_navigation` repository.

The script drives a Habitat simulator: it builds a settings record, constructs a
simulator, optionally shows a scene-selection dropdown, runs a scripted
trajectory loop that mutates the agent pose by a step counter `count`, captures
sensor observations, converts per-frame buffers to images, and pickles the whole
trajectory record together with derived camera intrinsics.

The external engine (physics, rendering, sensors) is opaque: we model its
outputs (observation frames, initial agent rotation, the tangent function used
by numpy) as parameters, and embed the script's own control flow and arithmetic
exactly, using exact rationals for the float arithmetic.
-/

namespace SceneGraphNav

/-- Exact-rational 3-vectors, modelling the numpy float triples used for the
agent translation (`np.array([0.3, 0, 0])` and friends). -/
structure Vec3 where
  x : ℚ
  y : ℚ
  z : ℚ
deriving DecidableEq, Repr

instance : Add Vec3 :=
  ⟨fun a b => ⟨a.x + b.x, a.y + b.y, a.z + b.z⟩⟩

theorem Vec3.add_def (a b : Vec3) : a + b = ⟨a.x + b.x, a.y + b.y, a.z + b.z⟩ := rfl

/-- Agent pose, as mutated by the trajectory loop.  Every rotation the script
performs is about the axis `(0, 1, 0)`, so the accumulated rotation is a yaw
angle; we store it as the coefficient of π (in radians the accumulated angle is
`yaw * π`).  The per-step increment `mn.Rad(-mn.math.pi_half / 20.0)` is
`-(π/2)/20`, i.e. coefficient `-(1/2)/20 = -1/40`. -/
structure Pose where
  trans : Vec3
  yaw : ℚ
deriving DecidableEq, Repr

/-- One pose update of the trajectory loop body
(`generate_dataset_replica.py`, lines 323–332): the branch taken depends only
on the step counter `count`.

```python
if count < 40:
    ...rotate(mn.Rad(- mn.math.pi_half / 20.0), mn.Vector3(0, 1, 0))
elif count < 60:
    ...translation += np.array([0.3, 0, 0]); ...rotate(...)
elif count < 80:
    ...translation += np.array([0.0, 0, 0.3]); ...rotate(...)
else:
    ...translation += np.array([-0.1, 0, -0.1])
```
-/
def stepPose (count : ℕ) (p : Pose) : Pose :=
  if count < 40 then
    { p with yaw := p.yaw + (-(1/2) / 20) }
  else if count < 60 then
    { trans := p.trans + ⟨3/10, 0, 0⟩, yaw := p.yaw + (-(1/2) / 20) }
  else if count < 80 then
    { trans := p.trans + ⟨0, 0, 3/10⟩, yaw := p.yaw + (-(1/2) / 20) }
  else
    { trans := p.trans + ⟨-(1/10), 0, -(1/10)⟩, yaw := p.yaw }

/-- C1: in the trajectory loop the pose delta is a function of `count` alone:
at `count = 39` the update is a pure rotation by `-π/2/20` radians about the Y
axis (yaw coefficient decreases by `1/40`, translation unchanged); for every
`40 ≤ count < 60` it is that same rotation plus a translation of `(0.3, 0, 0)`;
for every `60 ≤ count < 80` that same rotation plus a translation of
`(0, 0, 0.3)`; and for every `count ≥ 80` a translation of `(-0.1, 0, -0.1)`
with no rotation. -/
theorem stepPose_delta_by_count (p : Pose) (c : ℕ) :
    (c = 39 → stepPose c p = { trans := p.trans, yaw := p.yaw - 1/40 })
    ∧ (40 ≤ c → c < 60 →
        stepPose c p = { trans := p.trans + ⟨3/10, 0, 0⟩, yaw := p.yaw - 1/40 })
    ∧ (60 ≤ c → c < 80 →
        stepPose c p = { trans := p.trans + ⟨0, 0, 3/10⟩, yaw := p.yaw - 1/40 })
    ∧ (80 ≤ c →
        stepPose c p = { trans := p.trans + ⟨-(1/10), 0, -(1/10)⟩, yaw := p.yaw }) := by
  refine ⟨?_, ?_, ?_, ?_⟩
  · rintro rfl
    show { p with yaw := p.yaw + (-(1/2) / 20) } = _
    norm_num [sub_eq_add_neg]
  · intro h1 h2
    have hn : ¬ c < 40 := by omega
    simp only [stepPose, if_neg hn, if_pos h2]
    norm_num [sub_eq_add_neg]
  · intro h1 h2
    have hn : ¬ c < 40 := by omega
    have hn' : ¬ c < 60 := by omega
    simp only [stepPose, if_neg hn, if_neg hn', if_pos h2]
    norm_num [sub_eq_add_neg]
  · intro h1
    have hn : ¬ c < 40 := by omega
    have hn' : ¬ c < 60 := by omega
    have hn'' : ¬ c < 80 := by omega
    simp only [stepPose, if_neg hn, if_neg hn', if_neg hn'']

/-- Witness for `stepPose_delta_by_count`, instantiating every branch at a
concrete counter value and pose. -/
theorem stepPose_delta_by_count_witness :
    (stepPose 39 ⟨⟨0, 0, 0⟩, 0⟩ = { trans := ⟨0, 0, 0⟩, yaw := (0 : ℚ) - 1/40 })
    ∧ (stepPose 45 ⟨⟨0, 0, 0⟩, 0⟩
        = { trans := ⟨0, 0, 0⟩ + ⟨3/10, 0, 0⟩, yaw := (0 : ℚ) - 1/40 })
    ∧ (stepPose 60 ⟨⟨0, 0, 0⟩, 0⟩
        = { trans := ⟨0, 0, 0⟩ + ⟨0, 0, 3/10⟩, yaw := (0 : ℚ) - 1/40 })
    ∧ (stepPose 80 ⟨⟨0, 0, 0⟩, 0⟩
        = { trans := ⟨0, 0, 0⟩ + ⟨-(1/10), 0, -(1/10)⟩, yaw := (0 : ℚ) }) :=
  ⟨(stepPose_delta_by_count ⟨⟨0, 0, 0⟩, 0⟩ 39).1 rfl,
   (stepPose_delta_by_count ⟨⟨0, 0, 0⟩, 0⟩ 45).2.1 (by norm_num) (by norm_num),
   (stepPose_delta_by_count ⟨⟨0, 0, 0⟩, 0⟩ 60).2.2.1 (by norm_num) (by norm_num),
   (stepPose_delta_by_count ⟨⟨0, 0, 0⟩, 0⟩ 80).2.2.2 (by norm_num)⟩

/-- Derived camera intrinsics record; mirrors the `camera_info` dict
(`generate_dataset_replica.py`, line 353), which has exactly these seven keys. -/
structure CameraInfo where
  width : ℚ
  height : ℚ
  fov : ℚ
  fx : ℚ
  fy : ℚ
  cx : ℚ
  cy : ℚ
deriving DecidableEq, Repr

/-- `np.radians(x) = x * π / 180`; the value of π used by numpy is passed in as
`pi` so the record stays exactly computable. -/
def radians (pi x : ℚ) : ℚ := x * pi / 180

/-- Camera intrinsics derived at the end of the run
(`generate_dataset_replica.py`, lines 349–353):
`fx = fy = 0.5 * width / np.tan(np.radians(fov) / 2)`, `cx, cy = width/2,
height/2`, with `width = 1280`, `height = 720` from the default settings.  The
engine-supplied tangent function is the parameter `tan`. -/
def cameraInfo (pi : ℚ) (tan : ℚ → ℚ) (fov : ℚ) : CameraInfo :=
  let width : ℚ := 1280
  let height : ℚ := 720
  let f : ℚ := 0.5 * width / tan (radians pi fov / 2)
  { width := width, height := height, fov := fov,
    fx := f, fy := f, cx := width / 2, cy := height / 2 }

/-- The mapping pickled to `data.pkl` (`data_to_save`,
`generate_dataset_replica.py`, lines 354–359), with exactly the keys
`observations`, `rotations`, `translations`, `camera_info`.  Observation frames
are opaque engine outputs, hence the type parameter. -/
structure SavedData (Obs : Type) where
  observations : List Obs
  rotations : List ℚ
  translations : List Vec3
  camera_info : CameraInfo

/-- File paths written by the script, relative to the repository root
`dir_path`.  `save_sample` writes to `dir_path + '/output'`, the pickle to
`dir_path + '/output/data.pkl'`. -/
def rgbImagePath (idx : ℕ) : String := "/output/rgb_image_" ++ toString idx ++ ".png"

def semanticImagePath (idx : ℕ) : String :=
  "/output/semantic_image_" ++ toString idx ++ ".png"

def depthImagePath (idx : ℕ) : String := "/output/depth_image_" ++ toString idx ++ ".png"

def dataPklPath : String := "/output/data.pkl"

/-- A file write performed by the script: either a PNG image saved by
`save_sample`, or the final pickle dump (opened with mode `"wb"`, which
truncates/overwrites any existing file at that path). -/
inductive WriteEvent (Obs : Type) where
  | png (path : String)
  | pickle (path : String) (mode : String) (data : SavedData Obs)

/-- Path of a write event. -/
def WriteEvent.path {Obs : Type} : WriteEvent Obs → String
  | .png p => p
  | .pickle p _ _ => p

/-- The three PNG writes of one `save_sample(rgb, semantic, depth, count)` call
(`generate_dataset_replica.py`, lines 270–286). -/
def save_sample (Obs : Type) (idx : ℕ) : List (WriteEvent Obs) :=
  [.png (rgbImagePath idx), .png (semanticImagePath idx), .png (depthImagePath idx)]

/-- Mutable state of the trajectory loop: the three accumulated sequences, the
step counter `count`, and the agent pose. -/
structure TrajState (Obs : Type) where
  observations : List Obs
  translations : List Vec3
  rotations : List ℚ
  count : ℕ
  pose : Pose

/-- State just before the loop (`generate_dataset_replica.py`, lines 316–321):
empty sequences, `count = 1`, translation set to `(-2, 0, 0)`; the agent's
initial rotation is whatever the engine gave it, passed in as `r0`. -/
def initTrajState (Obs : Type) (r0 : ℚ) : TrajState Obs :=
  { observations := [], translations := [], rotations := [], count := 1,
    pose := { trans := ⟨-2, 0, 0⟩, yaw := r0 } }

/-- One iteration of the `while` loop (`generate_dataset_replica.py`, lines
322–346): update the pose from `count`, step physics (opaque), then, if
`make_video`, fetch the observation and append observation / translation /
rotation; if additionally `display`, call `save_sample` with index `count` and
increment `count`.  The engine's observation for this iteration is `obs`. -/
def loopIter {Obs : Type} (mv disp : Bool) (obs : Obs) (s : TrajState Obs) :
    TrajState Obs × List (WriteEvent Obs) :=
  let pose := stepPose s.count s.pose
  if mv then
    let s1 : TrajState Obs :=
      { observations := s.observations ++ [obs],
        translations := s.translations ++ [pose.trans],
        rotations := s.rotations ++ [pose.yaw],
        count := s.count, pose := pose }
    if disp then ({ s1 with count := s.count + 1 }, save_sample Obs s.count)
    else (s1, [])
  else ({ s with pose := pose }, [])

/-- The whole trajectory loop.  The number of iterations is decided by the
engine's world clock (`sim.get_world_time() < start_time + 4.0` with
`step_physics(1.0/30.0)`), so we run one iteration per engine-supplied
observation frame in `obsList`. -/
def runLoop {Obs : Type} (mv disp : Bool) :
    List Obs → TrajState Obs → TrajState Obs × List (WriteEvent Obs)
  | [], s => (s, [])
  | o :: rest, s =>
    let r1 := loopIter mv disp o s
    let r2 := runLoop mv disp rest r1.1
    (r2.1, r1.2 ++ r2.2)

/-- The record built after the loop (`data_to_save`). -/
def dataToSave {Obs : Type} (final : TrajState Obs) (pi : ℚ) (tan : ℚ → ℚ)
    (fov : ℚ) : SavedData Obs :=
  { observations := final.observations, rotations := final.rotations,
    translations := final.translations, camera_info := cameraInfo pi tan fov }

/-- The trajectory phase of the script: run the loop, then pickle
`data_to_save` to `data.pkl` with mode `"wb"`
(`generate_dataset_replica.py`, lines 316–363). -/
def runProgram {Obs : Type} (mv disp : Bool) (obsList : List Obs) (r0 : ℚ)
    (pi : ℚ) (tan : ℚ → ℚ) (fov : ℚ) : TrajState Obs × List (WriteEvent Obs) :=
  let r := runLoop mv disp obsList (initTrajState Obs r0)
  (r.1, r.2 ++ [.pickle dataPklPath "wb" (dataToSave r.1 pi tan fov)])

theorem loopIter_lengths {Obs : Type} (disp : Bool) (obs : Obs) (s : TrajState Obs)
    (h1 : s.observations.length = s.translations.length)
    (h2 : s.translations.length = s.rotations.length) :
    (loopIter true disp obs s).1.observations.length
        = (loopIter true disp obs s).1.translations.length
    ∧ (loopIter true disp obs s).1.translations.length
        = (loopIter true disp obs s).1.rotations.length := by
  cases disp <;> simp [loopIter, h1, h2]

theorem runLoop_lengths {Obs : Type} (disp : Bool) (obsList : List Obs)
    (s : TrajState Obs)
    (h1 : s.observations.length = s.translations.length)
    (h2 : s.translations.length = s.rotations.length) :
    (runLoop true disp obsList s).1.observations.length
        = (runLoop true disp obsList s).1.translations.length
    ∧ (runLoop true disp obsList s).1.translations.length
        = (runLoop true disp obsList s).1.rotations.length := by
  induction obsList generalizing s with
  | nil => exact ⟨h1, h2⟩
  | cons o rest ih =>
    have h := loopIter_lengths disp o s h1 h2
    simpa [runLoop] using ih (loopIter true disp o s).1 h.1 h.2

/-- C2: after the trajectory loop, in any run with frame capture
(`make_video`) enabled, the three accumulated sequences have equal length:
`len(observations) = len(translations) = len(rotations)`. -/
theorem trajectory_lengths_equal {Obs : Type} (disp : Bool) (obsList : List Obs)
    (r0 : ℚ) :
    (runLoop true disp obsList (initTrajState Obs r0)).1.observations.length
        = (runLoop true disp obsList (initTrajState Obs r0)).1.translations.length
    ∧ (runLoop true disp obsList (initTrajState Obs r0)).1.translations.length
        = (runLoop true disp obsList (initTrajState Obs r0)).1.rotations.length :=
  runLoop_lengths disp obsList (initTrajState Obs r0) rfl rfl

theorem loopIter_no_disp {Obs : Type} (mv : Bool) (obs : Obs) (s : TrajState Obs) :
    (loopIter mv false obs s).1.count = s.count
    ∧ (loopIter mv false obs s).1.pose = stepPose s.count s.pose
    ∧ (loopIter mv false obs s).2 = [] := by
  cases mv <;> simp [loopIter]

theorem runLoop_no_disp {Obs : Type} (mv : Bool) (obsList : List Obs)
    (s : TrajState Obs) (h : s.count = 1) :
    (runLoop mv false obsList s).1.count = 1
    ∧ (runLoop mv false obsList s).1.pose.trans = s.pose.trans
    ∧ (runLoop mv false obsList s).1.pose.yaw
        = s.pose.yaw - obsList.length * (1/40) := by
  induction obsList generalizing s with
  | nil => simpa [runLoop] using h
  | cons o rest ih =>
    have hit := loopIter_no_disp mv o s
    have hs1 : stepPose s.count s.pose
        = { s.pose with yaw := s.pose.yaw + (-(1/2) / 20) } := by
      rw [h]; simp [stepPose]
    have := ih (loopIter mv false o s).1 (by rw [hit.1, h])
    refine ⟨by simpa [runLoop] using this.1, ?_, ?_⟩
    · have := this.2.1
      simp only [runLoop]
      rw [this, hit.2.1, hs1]
    · have := this.2.2
      simp only [runLoop]
      rw [this, hit.2.1, hs1]
      simp
      ring_nf

/-- C9: `count` starts at 1 and is incremented only under both `make_video`
and `display`; with `--no-display` (`display = false`) `count` stays 1 for the
whole loop, so every iteration takes the rotate-only branch: the agent's
translation is never changed from its initial `(-2, 0, 0)`, while the yaw
still decreases by `π/40` radians (coefficient `1/40`) per iteration. -/
theorem no_display_never_translates {Obs : Type} (mv : Bool) (obsList : List Obs)
    (r0 : ℚ) :
    (runLoop mv false obsList (initTrajState Obs r0)).1.count = 1
    ∧ (runLoop mv false obsList (initTrajState Obs r0)).1.pose.trans = ⟨-2, 0, 0⟩
    ∧ (runLoop mv false obsList (initTrajState Obs r0)).1.pose.yaw
        = r0 - obsList.length * (1/40) :=
  runLoop_no_disp mv obsList (initTrajState Obs r0) rfl

/-- C6: for every field-of-view value `F`, the intrinsics derived from
`width = 1280`, `height = 720` satisfy `fx = fy = 0.5 * 1280 / tan(radians F / 2)`,
`cx = 640`, `cy = 360`, and the persisted `camera_info` record carries exactly
these `width`, `height`, `fov`, `fx`, `fy`, `cx`, `cy` values. -/
theorem camera_info_intrinsics (pi F : ℚ) (tan : ℚ → ℚ) :
    (cameraInfo pi tan F).fx = 0.5 * 1280 / tan (radians pi F / 2)
    ∧ (cameraInfo pi tan F).fx = (cameraInfo pi tan F).fy
    ∧ (cameraInfo pi tan F).cx = 640
    ∧ (cameraInfo pi tan F).cy = 360
    ∧ (cameraInfo pi tan F).width = 1280
    ∧ (cameraInfo pi tan F).height = 720
    ∧ (cameraInfo pi tan F).fov = F
    ∧ ∀ (Obs : Type) (final : TrajState Obs),
        (dataToSave final pi tan F).camera_info = cameraInfo pi tan F := by
  refine ⟨rfl, rfl, by norm_num [cameraInfo], by norm_num [cameraInfo], rfl, rfl, rfl,
    fun _ _ => rfl⟩

theorem rgbImagePath_ne_dataPkl (idx : ℕ) : rgbImagePath idx ≠ dataPklPath := by
  intro h
  have hl := congrArg String.length h
  simp only [rgbImagePath, dataPklPath, String.length_append] at hl
  have e1 : ("/output/rgb_image_" : String).length = 18 := rfl
  have e2 : (".png" : String).length = 4 := rfl
  have e3 : ("/output/data.pkl" : String).length = 16 := rfl
  omega

theorem semanticImagePath_ne_dataPkl (idx : ℕ) :
    semanticImagePath idx ≠ dataPklPath := by
  intro h
  have hl := congrArg String.length h
  simp only [semanticImagePath, dataPklPath, String.length_append] at hl
  have e1 : ("/output/semantic_image_" : String).length = 23 := rfl
  have e2 : (".png" : String).length = 4 := rfl
  have e3 : ("/output/data.pkl" : String).length = 16 := rfl
  omega

theorem depthImagePath_ne_dataPkl (idx : ℕ) : depthImagePath idx ≠ dataPklPath := by
  intro h
  have hl := congrArg String.length h
  simp only [depthImagePath, dataPklPath, String.length_append] at hl
  have e1 : ("/output/depth_image_" : String).length = 20 := rfl
  have e2 : (".png" : String).length = 4 := rfl
  have e3 : ("/output/data.pkl" : String).length = 16 := rfl
  omega

theorem save_sample_no_pkl {Obs : Type} (idx : ℕ) :
    ∀ w ∈ save_sample Obs idx, w.path ≠ dataPklPath := by
  intro w hw
  simp only [save_sample, List.mem_cons, List.mem_singleton] at hw
  rcases hw with rfl | rfl | rfl | h
  · exact rgbImagePath_ne_dataPkl idx
  · exact semanticImagePath_ne_dataPkl idx
  · exact depthImagePath_ne_dataPkl idx
  · exact absurd h (List.not_mem_nil w)

theorem loopIter_no_pkl {Obs : Type} (mv disp : Bool) (obs : Obs)
    (s : TrajState Obs) : ∀ w ∈ (loopIter mv disp obs s).2, w.path ≠ dataPklPath := by
  intro w hw
  cases mv <;> cases disp <;> simp only [loopIter] at hw
  · exact absurd hw (List.not_mem_nil w)
  · exact absurd hw (List.not_mem_nil w)
  · exact absurd hw (List.not_mem_nil w)
  · exact save_sample_no_pkl s.count w hw

theorem runLoop_no_pkl {Obs : Type} (mv disp : Bool) (obsList : List Obs)
    (s : TrajState Obs) :
    ∀ w ∈ (runLoop mv disp obsList s).2, w.path ≠ dataPklPath := by
  induction obsList generalizing s with
  | nil => intro w hw; exact absurd hw (List.not_mem_nil w)
  | cons o rest ih =>
    intro w hw
    simp only [runLoop, List.mem_append] at hw
    rcases hw with hw | hw
    · exact loopIter_no_pkl mv disp o s w hw
    · exact ih (loopIter mv disp o s).1 w hw

theorem runLoop_observations {Obs : Type} (disp : Bool) (obsList : List Obs)
    (s : TrajState Obs) :
    (runLoop true disp obsList s).1.observations = s.observations ++ obsList := by
  induction obsList generalizing s with
  | nil => simp [runLoop]
  | cons o rest ih =>
    have hit : (loopIter true disp o s).1.observations = s.observations ++ [o] := by
      cases disp <;> simp [loopIter]
    simp only [runLoop]
    rw [ih, hit]
    simp

/-- C8: `data.pkl` is written exactly once per run, as the final write after
the whole trajectory loop, with overwrite mode `"wb"`, and its payload is the
full trajectory record (all observation frames, all translations, all
rotations accumulated by the loop) plus the derived intrinsics, under the keys
`observations`, `rotations`, `translations`, `camera_info`; with capture
enabled the observation sequence is the complete list of captured frames. -/
theorem data_pkl_written_once {Obs : Type} (mv disp : Bool) (obsList : List Obs)
    (r0 pi fov : ℚ) (tan : ℚ → ℚ) :
    ((runProgram mv disp obsList r0 pi tan fov).2.filter
        (fun w => w.path == dataPklPath)).length = 1
    ∧ (runProgram mv disp obsList r0 pi tan fov).2.getLast?
        = some (.pickle dataPklPath "wb"
            (dataToSave (runProgram mv disp obsList r0 pi tan fov).1 pi tan fov))
    ∧ (runProgram true disp obsList r0 pi tan fov).1.observations = obsList := by
  refine ⟨?_, ?_, ?_⟩
  · have hnone : ∀ w ∈ (runLoop mv disp obsList (initTrajState Obs r0)).2,
        ¬ (w.path == dataPklPath) = true := by
      intro w hw
      simpa using runLoop_no_pkl mv disp obsList (initTrajState Obs r0) w hw
    rw [runProgram, List.filter_append, List.filter_eq_nil_iff.mpr hnone]
    simp [WriteEvent.path]
  · rw [runProgram]
    exact List.getLast?_concat _
  · simpa [runProgram] using
      runLoop_observations disp obsList (initTrajState Obs r0)

/-- One depth pixel of `save_sample` (`generate_dataset_replica.py`, line 285):
`(depth_obs / 10 * 255).astype(np.uint8)`.  Depth buffers are non-negative, so
the C-cast truncation toward zero agrees with the floor; the cast to `uint8`
reduces the integer part mod `2^8`. -/
def depthToByte (d : ℚ) : ℕ := (⌊d / 10 * 255⌋).toNat % 256

/-- C4: `save_sample` converts a depth value `d` to an 8-bit byte by linear
rescaling with scale factor `255/10`, truncating the result and reducing it
into the 8-bit range `[0, 255]`; in particular depth `10.0` maps to byte `255`
and depth `0.0` to byte `0`. -/
theorem depth_byte_scaling (d : ℚ) :
    depthToByte d = (⌊d * (255 / 10)⌋).toNat % 256
    ∧ depthToByte d ≤ 255
    ∧ depthToByte 10 = 255
    ∧ depthToByte 0 = 0 := by
  have h10 : depthToByte 10 = 255 := by
    have hf : (⌊(10 : ℚ) / 10 * 255⌋) = 255 := by norm_num
    simp [depthToByte, hf]
  have h0 : depthToByte 0 = 0 := by
    have hf : (⌊(0 : ℚ) / 10 * 255⌋) = 0 := by norm_num
    simp [depthToByte, hf]
  refine ⟨?_, ?_, h10, h0⟩
  · unfold depthToByte
    congr 2
    ring
  · exact Nat.le_of_lt_succ (Nat.mod_lt _ (by norm_num))

/-- One semantic pixel of `save_sample` (`generate_dataset_replica.py`,
line 280): `(semantic_obs.flatten() % 40).astype(np.uint8)`; semantic ids are
non-negative integers, and the value put into the palette-indexed image is the
id mod 40 (already below 256, so the `uint8` cast is the identity on it). -/
def semanticToIndex (v : ℕ) : ℕ := (v % 40) % 256

/-- C5: `save_sample` maps every semantic buffer value `v` to palette index
`v mod 40`; in particular semantic value `83` is written as pixel index `3`. -/
theorem semantic_palette_index (v : ℕ) :
    semanticToIndex v = v % 40 ∧ semanticToIndex v < 40 ∧ semanticToIndex 83 = 3 := by
  refine ⟨?_, ?_, rfl⟩
  · exact Nat.mod_eq_of_lt (Nat.lt_of_lt_of_le (Nat.mod_lt v (by norm_num)) (by norm_num))
  · show (v % 40) % 256 < 40
    rw [Nat.mod_eq_of_lt (Nat.lt_of_lt_of_le (Nat.mod_lt v (by norm_num)) (by norm_num))]
    exact Nat.mod_lt v (by norm_num)

/-- Does "NONE" start this character list?  Helper for the Python substring
test `"NONE" in scene_handle`. -/
def startsNONE : List Char → Bool
  | 'N' :: 'O' :: 'N' :: 'E' :: _ => true
  | _ => false

/-- Does "NONE" occur anywhere in this character list? -/
def hasNONE : List Char → Bool
  | [] => false
  | c :: rest => startsNONE (c :: rest) || hasNONE rest

/-- Python's `"NONE" in scene_handle`: substring containment. -/
def containsNONE (s : String) : Bool := hasNONE s.data

/-- The non-interactive selection logic of `build_widget_ui`
(`generate_dataset_replica.py`, lines 218–236): with no widget capability the
function only runs its default-selection part.  `prior` is the value the
global `selected_scene` holds on entry (at the script's single call site it is
`"NONE"`, set by `make_simulator_from_settings`); the Python loop leaves the
global untouched when every handle contains `"NONE"`.

```python
if len(scene_handles) == 0:
    selected_scene = "NONE"
else:
    for scene_handle in scene_handles:
        if "NONE" not in scene_handle:
            selected_scene = scene_handle
            break
```
-/
def build_widget_ui (scene_handles : List String) (prior : String) : String :=
  if scene_handles.length = 0 then "NONE"
  else
    match scene_handles.find? (fun h => !(containsNONE h)) with
    | some h => h
    | none => prior

/-- Scene selection as the claim words it: the first handle whose identifier
is not (equal to) the sentinel `"NONE"`, or the sentinel itself if no such
handle exists. -/
def chooseSceneClaim (scene_handles : List String) : String :=
  if scene_handles.length = 0 then "NONE"
  else
    match scene_handles.find? (fun h => !(h == "NONE")) with
    | some h => h
    | none => "NONE"

/-- Counterexample to C3 as stated: the code tests `"NONE" not in handle`
(substring containment), not identifier inequality.  For the one-element list
`["apt_NONE_variant"]` the code keeps the sentinel, although the first (and
only) handle differs from the sentinel `"NONE"` and the claim therefore says
it should be selected. -/
theorem build_widget_ui_counterexample :
    build_widget_ui ["apt_NONE_variant"] "NONE" = "NONE"
    ∧ ("apt_NONE_variant" : String) ≠ "NONE"
    ∧ chooseSceneClaim ["apt_NONE_variant"] = "apt_NONE_variant" := by
  refine ⟨by decide, by decide, by decide⟩

theorem find?_first_hit {α : Type} (p : α → Bool) :
    ∀ (pre : List α) (a : α) (post : List α), (∀ g ∈ pre, p g = false) →
      p a = true → (pre ++ a :: post).find? p = some a := by
  intro pre
  induction pre with
  | nil =>
    intro a post _ ha
    simp [List.find?, ha]
  | cons b bs ih =>
    intro a post hpre ha
    have hb : p b = false := hpre b (by simp)
    simp only [List.cons_append, List.find?, hb]
    exact ih a post (fun g hg => hpre g (by simp [hg])) ha

/-- C3 amended: without widget capability, scene selection is deterministic in
the enumerated handle list and the prior stored selection (the sentinel
`"NONE"` at the call site): an empty list yields `"NONE"`; a non-empty list
yields the first handle that does not contain `"NONE"` as a substring; and if
every handle contains `"NONE"` the prior sentinel value is kept. -/
theorem build_widget_ui_amended (handles : List String) :
    (handles = [] → build_widget_ui handles "NONE" = "NONE")
    ∧ (∀ pre h post, handles = pre ++ h :: post →
        (∀ g ∈ pre, containsNONE g = true) → containsNONE h = false →
        build_widget_ui handles "NONE" = h)
    ∧ ((∀ g ∈ handles, containsNONE g = true) →
        build_widget_ui handles "NONE" = "NONE") := by
  refine ⟨?_, ?_, ?_⟩
  · rintro rfl; rfl
  · intro pre h post hsplit hpre hh
    subst hsplit
    have hlen : ¬ (pre ++ h :: post).length = 0 := by simp
    have hfind : (pre ++ h :: post).find? (fun g => !(containsNONE g)) = some h :=
      find?_first_hit _ pre h post (fun g hg => by simp [hpre g hg]) (by simp [hh])
    simp [build_widget_ui, hlen, hfind]
  · intro hall
    by_cases hlen : handles.length = 0
    · simp [build_widget_ui, hlen]
    · have hfind : handles.find? (fun g => !(containsNONE g)) = none :=
        List.find?_eq_none.mpr (fun g hg => by simp [hall g hg])
      simp [build_widget_ui, hlen, hfind]

/-- Witness for `build_widget_ui_amended`: a list whose first handle contains
`"NONE"` as a substring and whose second does not selects the second. -/
theorem build_widget_ui_amended_witness :
    build_widget_ui ["apt_NONE_variant", "apt_0"] "NONE" = "apt_0" :=
  (build_widget_ui_amended ["apt_NONE_variant", "apt_0"]).2.1
    ["apt_NONE_variant"] "apt_0" [] rfl (by decide) (by decide)

/-- The script's module-level globals around the simulator lifecycle
(`generate_dataset_replica.py`, lines 27–36 and 129–157).  The engine's
`habitat_sim.Simulator(cfg)` constructor and `sim.close()` are modelled as
allocation and removal of opaque handles: `live` is the set (as a list) of
engine instances currently alive, `sim` the handle the global `sim` variable
points at, `nextId` a fresh-handle counter, `selected_scene` the UI global,
and `loadedScene` the `settings["scene"]` the live simulator was built from.
The attribute managers re-derived from the new simulator are opaque and not
tracked. -/
structure EngineState where
  live : List ℕ
  sim : Option ℕ
  nextId : ℕ
  selected_scene : String
  loadedScene : String
deriving DecidableEq, Repr

/-- `make_simulator_from_settings` (`generate_dataset_replica.py`, lines
129–157): close the current simulator if one exists, construct a fresh one
from the settings, re-derive the managers, and finally reset the global
`selected_scene` to `"NONE"`. -/
def make_simulator_from_settings (settingsScene : String) (s : EngineState) :
    EngineState :=
  let closed : EngineState :=
    match s.sim with
    | some h => { s with live := s.live.erase h }
    | none => s
  { live := closed.live ++ [closed.nextId],
    sim := some closed.nextId,
    nextId := closed.nextId + 1,
    selected_scene := "NONE",
    loadedScene := settingsScene }

/-- C7: calling `make_simulator_from_settings` leaves exactly one live
simulator handle: any existing simulator is closed before the new one is
constructed, so (starting from any state where `sim` tracks the unique live
instance and handles are fresh) at most one instance is alive at any time,
and the previous handle is no longer alive afterwards. -/
theorem rebuild_exactly_one_live (scene : String) (s : EngineState)
    (hinv : s.live = s.sim.toList)
    (hfresh : ∀ x ∈ s.live, x < s.nextId) :
    (make_simulator_from_settings scene s).live.length = 1
    ∧ (make_simulator_from_settings scene s).live
        = (make_simulator_from_settings scene s).sim.toList
    ∧ (∀ x ∈ (make_simulator_from_settings scene s).live,
        x < (make_simulator_from_settings scene s).nextId)
    ∧ (∀ h, s.sim = some h → h ∉ (make_simulator_from_settings scene s).live) := by
  cases hs : s.sim with
  | none =>
    have hl : s.live = [] := by rw [hinv, hs]; rfl
    refine ⟨?_, ?_, ?_, ?_⟩
    · simp [make_simulator_from_settings, hs, hl]
    · simp [make_simulator_from_settings, hs, hl]
    · simp [make_simulator_from_settings, hs, hl]
    · intro h hh; exact absurd hh (by simp)
  | some h =>
    have hl : s.live = [h] := by rw [hinv, hs]; rfl
    have hlt : h < s.nextId := hfresh h (by rw [hl]; simp)
    refine ⟨?_, ?_, ?_, ?_⟩
    · simp [make_simulator_from_settings, hs, hl]
    · simp [make_simulator_from_settings, hs, hl]
    · simp [make_simulator_from_settings, hs, hl]
    · intro h' hh'
      injection hh' with hh'
      subst hh'
      simp [make_simulator_from_settings, hs, hl]
      omega

/-- Witness for `rebuild_exactly_one_live` at a concrete state holding one
live simulator. -/
theorem rebuild_exactly_one_live_witness :
    (make_simulator_from_settings "apt_1"
        ⟨[5], some 5, 6, "apt_1", "apt_0"⟩).live.length = 1
    ∧ ∀ h, (some 5 : Option ℕ) = some h →
        h ∉ (make_simulator_from_settings "apt_1"
              ⟨[5], some 5, 6, "apt_1", "apt_0"⟩).live :=
  ⟨(rebuild_exactly_one_live "apt_1" ⟨[5], some 5, 6, "apt_1", "apt_0"⟩
      (by decide) (by decide)).1,
   (rebuild_exactly_one_live "apt_1" ⟨[5], some 5, 6, "apt_1", "apt_0"⟩
      (by decide) (by decide)).2.2.2⟩

/-- The synchronous re-read of the selection just before the trajectory loop
(`generate_dataset_replica.py`, lines 311–314): if the stored selection
differs from the current `settings["scene"]`, the settings take the selected
scene and the simulator is rebuilt from them.  Returns the resulting
`settings["scene"]` together with the resulting global state. -/
def scene_reread (settingsScene : String) (s : EngineState) :
    String × EngineState :=
  if settingsScene ≠ s.selected_scene then
    (s.selected_scene, make_simulator_from_settings s.selected_scene s)
  else
    (settingsScene, s)

/-- C10: every call to `make_simulator_from_settings` ends by resetting the
global `selected_scene` to `"NONE"`; consequently, after the pre-loop rebuild
(triggered from the default settings scene `"NONE"` exactly when the user's
selection differs from it), the stored selection no longer names the scene
that was just loaded. -/
theorem rebuild_resets_selected_scene (scene : String) (s : EngineState) :
    (make_simulator_from_settings scene s).selected_scene = "NONE"
    ∧ (s.selected_scene ≠ "NONE" →
        (scene_reread "NONE" s).2.loadedScene = s.selected_scene
        ∧ (scene_reread "NONE" s).2.selected_scene = "NONE"
        ∧ (scene_reread "NONE" s).2.selected_scene
            ≠ (scene_reread "NONE" s).2.loadedScene) := by
  refine ⟨rfl, ?_⟩
  intro hne
  have htrig : ("NONE" : String) ≠ s.selected_scene := fun h => hne h.symm
  refine ⟨?_, ?_, ?_⟩
  · simp [scene_reread, htrig, make_simulator_from_settings]
  · simp [scene_reread, htrig, make_simulator_from_settings]
  · simp [scene_reread, htrig, make_simulator_from_settings]

/-- Witness for `rebuild_resets_selected_scene`: with a user selection
`"apt_2"` pending, the pre-loop rebuild loads `"apt_2"` but leaves the stored
selection as `"NONE"`. -/
theorem rebuild_resets_selected_scene_witness :
    (scene_reread "NONE" ⟨[3], some 3, 4, "apt_2", "NONE"⟩).2.loadedScene = "apt_2"
    ∧ (scene_reread "NONE" ⟨[3], some 3, 4, "apt_2", "NONE"⟩).2.selected_scene
        ≠ (scene_reread "NONE" ⟨[3], some 3, 4, "apt_2", "NONE"⟩).2.loadedScene :=
  ⟨((rebuild_resets_selected_scene "NONE"
      ⟨[3], some 3, 4, "apt_2", "NONE"⟩).2 (by decide)).1,
   ((rebuild_resets_selected_scene "NONE"
      ⟨[3], some 3, 4, "apt_2", "NONE"⟩).2 (by decide)).2.2⟩

end SceneGraphNav
